import Mathlib

/-! Slice reassembly and raw capture sessions of `examples/still/raw/raw.c`.

A shallow embedding of `raw.c`.  The C globals (`fd`, `yuv_planes`,
`yuv_planes_slice`, `offset_y`, `offset_u`, `offset_v`, `file_buffer`) are the
fields of `State`, together with the part of the outside world the program
acts on: the destination file, the descriptor behind `fd`, the heap block
behind `file_buffer`, and the trace of the calls made to the system and to the
camera driver.

What the program cannot decide itself is an input: the results of `open`,
`pwrite`, `close`, `omxcam_still_start` and `omxcam_still_stop`, the buffers
the driver delivers, the bytes found in a fresh `malloc` block (`Env`,
`Delivery`), and the plane geometry function `omxcam_yuv_planes`, which lives
in the library and is a parameter of `save_yuv`.
-/

namespace Omxcam

/-- A `uint8_t`. -/
abbrev Byte := Fin 256

/-- Number of values of a `uint32_t`: arithmetic on the cursors is modulo this. -/
abbrev U32 : Nat := 4294967296

/-- Largest `int` plus one (`int` is 32 bits wide). -/
abbrev INT_LIMIT : Nat := 2147483648

/-- The struct `omxcam_yuv_planes_t` of `omxcam.h`: offset and length of the
Y, U and V planes.  Its fields are `uint32_t`. -/
structure omxcam_yuv_planes_t where
  offset_y : Nat
  length_y : Nat
  offset_u : Nat
  length_u : Nat
  offset_v : Nat
  length_v : Nat
deriving DecidableEq, Repr

/-- Calls made to the system and to the driver, in program order. -/
inductive Event where
  /-- The line `printf ("capturing %s\n", filename)`. -/
  | print_capturing
  /-- The line `fprintf (stderr, "error: open\n")`. -/
  | err_open
  /-- The line `fprintf (stderr, "error: pwrite\n")`. -/
  | err_pwrite
  /-- The line `fprintf (stderr, "error: close\n")`. -/
  | err_close
  /-- The call `omxcam_perror ()` made by `log_error`. -/
  | perror
  /-- A call `pwrite (fd, buf, count, offset)`; `landed` is the file position
  the bytes went to, `none` when the call returned -1. -/
  | pwrite (count : Nat) (offset : Nat) (landed : Option Nat)
  /-- A call `omxcam_still_stop ()` and whether it returned 0. -/
  | still_stop (ok : Bool)
  /-- A call `close (fd)` and whether it returned 0. -/
  | close (ok : Bool)
deriving DecidableEq, Repr

/-- The kernel object behind a descriptor number: whether it is still open
and whether it carries the status flag `O_APPEND`. -/
structure Descriptor where
  is_open : Bool
  append : Bool
deriving DecidableEq, Repr

/-- The globals of `raw.c` and the world they refer to. -/
structure State where
  /-- Content of the destination file on storage. -/
  file : List Byte
  /-- The global `fd`: `none` is the value -1. -/
  fd : Option Descriptor
  yuv_planes : omxcam_yuv_planes_t
  yuv_planes_slice : omxcam_yuv_planes_t
  offset_y : Nat
  offset_u : Nat
  offset_v : Nat
  /-- The byte at address `file_buffer + i`, for every `i`: the block
  returned by `malloc` and the memory that follows it. -/
  file_buffer : Nat → Byte
  /-- Size of the live heap block `file_buffer` points to; `none` when there
  is none (never allocated, or freed). -/
  block : Option Nat
  /-- Calls made so far, oldest first. -/
  trace : List Event

/-- One invocation of the delivery callback by the driver: the arguments
`(buffer, length)` with `length = buffer.length`, and the results the calls
made inside the callback will get. -/
structure Delivery where
  buffer : List Byte
  /-- Whether the `pwrite` of this call succeeds in full. -/
  pwrite_ok : Bool
  /-- Whether `omxcam_still_stop`, if called, returns 0. -/
  stop_ok : Bool

/-- Everything the outside world decides during one capture. -/
structure Env where
  /-- Whether `open` succeeds. -/
  open_ok : Bool
  /-- Bytes found at `file_buffer + i` right after `malloc`. -/
  garbage : Nat → Byte
  /-- The callback invocations made by `omxcam_still_start`, in order. -/
  deliveries : List Delivery
  /-- Whether `omxcam_still_start` returns 0. -/
  start_ok : Bool
  /-- Whether the final `pwrite` of `save_yuv` succeeds in full. -/
  pwrite_ok : Bool
  /-- Whether `close` returns 0. -/
  close_ok : Bool

/-- The fields of `omxcam_still_settings_t` that `raw.c` reads. -/
structure omxcam_camera_settings_t where
  width : Nat
  height : Nat

/-- The struct `omxcam_still_settings_t`, as far as `raw.c` uses it. -/
structure omxcam_still_settings_t where
  camera : omxcam_camera_settings_t
  slice_height : Nat
  buffer_callback : State → Delivery → State

/-- Append one event to the trace. -/
def State.emit (s : State) (e : Event) : State :=
  { s with trace := s.trace ++ [e] }

/-- The function `log_error`: calls `omxcam_perror` (its result 1 is dropped by
every caller in this file). -/
def log_error (s : State) : State :=
  s.emit Event.perror

/-! ## System calls -/

/-- The call `open (filename, O_WRONLY | O_CREAT | O_TRUNC [| O_APPEND], 0666)`.
On success the file is created or truncated to length 0 and `fd` names a fresh
open descriptor carrying the `O_APPEND` flag as given; on failure `fd` is -1. -/
def sys_open (s : State) (append : Bool) (ok : Bool) : State :=
  if ok then { s with file := [], fd := some { is_open := true, append := append } }
  else { s with fd := none }

/-- Positional write of `buf` into `data` at `off`; a gap between the end of
the file and `off` reads as zero bytes. -/
def overlay (data buf : List Byte) (off : Nat) : List Byte :=
  data.take off ++ List.replicate (off - data.length) 0 ++ buf
    ++ data.drop (off + buf.length)

/-- The call `pwrite (fd, buf, buf.length, offset)` on Linux, the only system
the camera driver runs on.  It fails (returns -1, second component `true`)
when `fd` is not an open descriptor or when the world says so.  Otherwise all
bytes are written: at `offset` for an ordinary descriptor, and at the end of
the file, whatever `offset` is, for a descriptor opened with `O_APPEND`
(pwrite(2), section BUGS: "if a file is opened with O_APPEND, pwrite() appends
data to the end of the file, regardless of the value of offset"). -/
def sys_pwrite (s : State) (buf : List Byte) (offset : Nat) (ok : Bool) : State × Bool :=
  match s.fd with
  | none => (s.emit (Event.pwrite buf.length offset none), true)
  | some d =>
    if d.is_open && ok then
      if d.append then
        ({ s with file := s.file ++ buf,
                  trace := s.trace ++ [Event.pwrite buf.length offset (some s.file.length)] },
          false)
      else
        ({ s with file := overlay s.file buf offset,
                  trace := s.trace ++ [Event.pwrite buf.length offset (some offset)] },
          false)
    else (s.emit (Event.pwrite buf.length offset none), true)

/-- The call `close (fd)`; the second component is `true` when it returns
non-zero.  An open descriptor is released whatever the result is (close(2) on
Linux); closing something that is not an open descriptor fails. -/
def sys_close (s : State) (ok : Bool) : State × Bool :=
  match s.fd with
  | none => (s.emit (Event.close false), true)
  | some d =>
    if d.is_open then
      ({ s with fd := some { d with is_open := false },
                trace := s.trace ++ [Event.close ok] }, !ok)
    else (s.emit (Event.close false), true)

/-! ## Memory -/

/-- The call `memcpy (mem + dst, src + so, n)`: the `n` bytes of `src` from index
`so` on land at addresses `dst .. dst + n - 1`; all other addresses keep their
byte.  All claims read `src` inside its length; an index past it reads 0. -/
def memcpy (mem : Nat → Byte) (dst : Nat) (src : List Byte) (so n : Nat) : Nat → Byte :=
  fun a => if dst ≤ a ∧ a < dst + n then src.getD (so + (a - dst)) 0 else mem a

/-- The `n` bytes of memory from address `start` on. -/
def dump (mem : Nat → Byte) (start n : Nat) : List Byte :=
  (List.range n).map (fun i => mem (start + i))

/-- Conversion of a `uint32_t` value to `int`. -/
def to_int (x : Nat) : Int :=
  if x % U32 < INT_LIMIT then ((x % U32 : Nat) : Int) else ((x % U32 : Nat) : Int) - (U32 : Int)

/-- Conversion of an `int` to `size_t` (32 bits on the camera board). -/
def to_size_t (i : Int) : Nat :=
  (i % (U32 : Int)).toNat

/-- The call `malloc (size)`: `file_buffer` points to a fresh block of `size`
bytes with unspecified content. -/
def malloc (s : State) (size : Nat) (garbage : Nat → Byte) : State :=
  { s with file_buffer := garbage, block := some size }

/-- The call `free (file_buffer)`. -/
def free (s : State) : State :=
  { s with block := none }

/-! ## The callbacks -/

/-- The function `buffer_callback_rgb` (raw.c lines 21-30). -/
def buffer_callback_rgb (s : State) (d : Delivery) : State :=
  let r := sys_pwrite s d.buffer 0 d.pwrite_ok
  if r.2 then
    let s1 := r.1.emit Event.err_pwrite
    let s2 := s1.emit (Event.still_stop d.stop_ok)
    if d.stop_ok then s2 else log_error s2
  else r.1

/-- The function `buffer_callback_yuv` (raw.c lines 32-45). -/
def buffer_callback_yuv (s : State) (d : Delivery) : State :=
  let sl := s.yuv_planes_slice
  let m1 := memcpy s.file_buffer s.offset_y d.buffer sl.offset_y sl.length_y
  let oy := (s.offset_y + sl.length_y) % U32
  let m2 := memcpy m1 s.offset_u d.buffer sl.offset_u sl.length_u
  let ou := (s.offset_u + sl.length_u) % U32
  let m3 := memcpy m2 s.offset_v d.buffer sl.offset_v sl.length_v
  let ov := (s.offset_v + sl.length_v) % U32
  { s with file_buffer := m3, offset_y := oy, offset_u := ou, offset_v := ov }

/-- The destination ranges `(start, length)` of the three `memcpy` calls that
`buffer_callback_yuv` makes in state `s`, in order Y, U, V. -/
def yuv_writes (s : State) : List (Nat × Nat) :=
  [ (s.offset_y, s.yuv_planes_slice.length_y),
    (s.offset_u, s.yuv_planes_slice.length_u),
    (s.offset_v, s.yuv_planes_slice.length_v) ]

/-! ## The driver -/

/-- The library call `omxcam_still_start (settings)`: the driver invokes
`settings->buffer_callback` once per delivered buffer, in order, and then
returns; the second component is `true` when it returns non-zero. -/
def omxcam_still_start (settings : omxcam_still_settings_t) (env : Env) (s : State) :
    State × Bool :=
  (env.deliveries.foldl settings.buffer_callback s, !env.start_ok)

/-! ## The capture entry points -/

/-- The function `save_rgb` (raw.c lines 47-65); the second component is the
returned `int`. -/
def save_rgb (env : Env) (settings : omxcam_still_settings_t) (s : State) : State × Int :=
  let s := s.emit Event.print_capturing
  let s := sys_open s true env.open_ok
  if s.fd = none then (s.emit Event.err_open, 1)
  else
    let r := omxcam_still_start settings env s
    let s := if r.2 then log_error r.1 else r.1
    let c := sys_close s env.close_ok
    if c.2 then (c.1.emit Event.err_close, 1)
    else (c.1, 0)

/-- Lines 99-110 of `save_yuv`: the two geometries, the frame size, the three
cursors and the allocation.  The second component is `yuv_frame_size`. -/
def save_yuv_setup (omxcam_yuv_planes : Nat → Nat → omxcam_yuv_planes_t) (env : Env)
    (settings : omxcam_still_settings_t) (s : State) : State × Int :=
  let s := { s with yuv_planes := omxcam_yuv_planes settings.camera.width settings.camera.height }
  let s := { s with yuv_planes_slice :=
                      omxcam_yuv_planes settings.camera.width settings.slice_height }
  let yuv_frame_size : Int := to_int (s.yuv_planes.offset_v + s.yuv_planes.length_v)
  let s := { s with offset_y := s.yuv_planes.offset_y }
  let s := { s with offset_u := s.yuv_planes.offset_u }
  let s := { s with offset_v := s.yuv_planes.offset_v }
  (malloc s (to_size_t yuv_frame_size) env.garbage, yuv_frame_size)

/-- Lines 99-112 of `save_yuv`: the set-up, then the blocking call
`if (omxcam_still_start (settings)) log_error ();`.  The second component is
`yuv_frame_size`. -/
def save_yuv_capture (omxcam_yuv_planes : Nat → Nat → omxcam_yuv_planes_t) (env : Env)
    (settings : omxcam_still_settings_t) (s : State) : State × Int :=
  let su := save_yuv_setup omxcam_yuv_planes env settings s
  let r := omxcam_still_start settings env su.1
  (if r.2 then log_error r.1 else r.1, su.2)

/-- Lines 114-127 of `save_yuv`: the write of the whole frame buffer, `free`
and `close`; the second component is the returned `int`. -/
def save_yuv_finish (env : Env) (yuv_frame_size : Int) (s : State) : State × Int :=
  let w := sys_pwrite s (dump s.file_buffer 0 (to_size_t yuv_frame_size)) 0 env.pwrite_ok
  if w.2 then (w.1.emit Event.err_pwrite, 1)
  else
    let s := free w.1
    let c := sys_close s env.close_ok
    if c.2 then (c.1.emit Event.err_close, 1)
    else (c.1, 0)

/-- The function `save_yuv` (raw.c lines 67-128); the second component is the
returned `int`.  The geometry function `omxcam_yuv_planes` belongs to the
library and is a parameter. -/
def save_yuv (omxcam_yuv_planes : Nat → Nat → omxcam_yuv_planes_t) (env : Env)
    (settings : omxcam_still_settings_t) (s : State) : State × Int :=
  let s := s.emit Event.print_capturing
  let s := sys_open s false env.open_ok
  if s.fd = none then (s.emit Event.err_open, 1)
  else
    let c := save_yuv_capture omxcam_yuv_planes env settings s
    save_yuv_finish env c.2 c.1

/-! ## Configurations used by `main` and in the examples -/

/-- Settings as `main` prepares them for a YUV capture: the callback is
`buffer_callback_yuv`. -/
def yuv_settings (width height slice_height : Nat) : omxcam_still_settings_t :=
  { camera := { width := width, height := height }, slice_height := slice_height,
    buffer_callback := buffer_callback_yuv }

/-- Settings as `main` prepares them for an RGB capture: the callback is
`buffer_callback_rgb`. -/
def rgb_settings (width height slice_height : Nat) : omxcam_still_settings_t :=
  { camera := { width := width, height := height }, slice_height := slice_height,
    buffer_callback := buffer_callback_rgb }

/-- A sample geometry function for dimensions that need no alignment: a Y plane
of `width * height` bytes followed by U and V planes of a quarter of that.  It
gives the examples their numbers (64x32: 2048, 512, 512); every general
theorem below holds for an arbitrary geometry function. -/
def planes_420 (width height : Nat) : omxcam_yuv_planes_t :=
  { offset_y := 0, length_y := width * height,
    offset_u := width * height, length_u := width * height / 4,
    offset_v := width * height + width * height / 4, length_v := width * height / 4 }

/-- A state before any capture: no descriptor, no heap block, an old file. -/
def idle : State :=
  { file := [1, 2, 3], fd := none,
    yuv_planes := ⟨0, 0, 0, 0, 0, 0⟩, yuv_planes_slice := ⟨0, 0, 0, 0, 0, 0⟩,
    offset_y := 0, offset_u := 0, offset_v := 0,
    file_buffer := fun _ => 0, block := none, trace := [] }

/-- The Y, U or V sub-chunk of a delivered buffer: `len` bytes from `off` on. -/
def chunk (buffer : List Byte) (off len : Nat) : List Byte :=
  (buffer.drop off).take len

/-- A delivered buffer holds the three sub-chunks of the slice geometry. -/
def holds (sl : omxcam_yuv_planes_t) (buffer : List Byte) : Prop :=
  sl.offset_y + sl.length_y ≤ buffer.length ∧
  sl.offset_u + sl.length_u ≤ buffer.length ∧
  sl.offset_v + sl.length_v ≤ buffer.length

instance (sl : omxcam_yuv_planes_t) (buffer : List Byte) : Decidable (holds sl buffer) := by
  unfold holds; exact inferInstance

/-- The states in which the successive callback invocations start. -/
def states_before (cb : State → Delivery → State) : State → List Delivery → List State
  | _, [] => []
  | s, d :: ds => s :: states_before cb (cb s d) ds

/-- The Y sub-chunks of the delivered buffers, one after the other. -/
def plane_y (sl : omxcam_yuv_planes_t) (ds : List Delivery) : List Byte :=
  (ds.map (fun d => chunk d.buffer sl.offset_y sl.length_y)).flatten

/-- The U sub-chunks of the delivered buffers, one after the other. -/
def plane_u (sl : omxcam_yuv_planes_t) (ds : List Delivery) : List Byte :=
  (ds.map (fun d => chunk d.buffer sl.offset_u sl.length_u)).flatten

/-- The V sub-chunks of the delivered buffers, one after the other. -/
def plane_v (sl : omxcam_yuv_planes_t) (ds : List Delivery) : List Byte :=
  (ds.map (fun d => chunk d.buffer sl.offset_v sl.length_v)).flatten

/-- The `pwrite` calls of a sequence of buffers that land one after the
other from file position `pos` on: buffer `i` lands where buffer `i - 1`
ended. -/
def append_log (pos : Nat) : List Delivery → List Event
  | [] => []
  | d :: ds => Event.pwrite d.buffer.length 0 (some pos) :: append_log (pos + d.buffer.length) ds

/-- Whether an event is a call of `pwrite`. -/
def Event.is_pwrite : Event → Bool
  | Event.pwrite _ _ _ => true
  | _ => false

/-- Whether an event is a call of `omxcam_still_stop`. -/
def Event.is_stop : Event → Bool
  | Event.still_stop _ => true
  | _ => false

/-! ## Concrete scenarios -/

/-- A delivered slice buffer: `ny` bytes `y`, then `nu` bytes `u`, then `nv`
bytes `v`; its writes and stop requests succeed. -/
def slice_of (ny : Nat) (y : Byte) (nu : Nat) (u : Byte) (nv : Nat) (v : Byte) : Delivery :=
  { buffer := List.replicate ny y ++ List.replicate nu u ++ List.replicate nv v,
    pwrite_ok := true, stop_ok := true }

/-- The 64x32 frame delivered as two slices of height 16: every system call
succeeds. -/
def scenario_64x32 : Env :=
  { open_ok := true, garbage := fun _ => 0,
    deliveries := [slice_of 1024 11 256 12 256 13, slice_of 1024 21 256 22 256 23],
    start_ok := true, pwrite_ok := true, close_ok := true }

/-- A 4x6 frame delivered as two slices of height 4: the frame height is not a
multiple of the slice height. -/
def scenario_4x6 : Env :=
  { open_ok := true, garbage := fun _ => 0,
    deliveries := [slice_of 16 11 4 12 4 13, slice_of 16 21 4 22 4 23],
    start_ok := true, pwrite_ok := true, close_ok := true }

/-- A 4x4 frame with slices of height 2, for which the driver delivers three
slices: one more than the frame holds. -/
def scenario_4x4_extra : Env :=
  { open_ok := true, garbage := fun _ => 0,
    deliveries := [slice_of 8 11 2 12 2 13, slice_of 8 21 2 22 2 23, slice_of 8 31 2 32 2 33],
    start_ok := true, pwrite_ok := true, close_ok := true }

/-- The 4x4 frame with slices of height 2, delivered in full (two slices). -/
def scenario_4x4 : Env :=
  { open_ok := true, garbage := fun _ => 0,
    deliveries := [slice_of 8 11 2 12 2 13, slice_of 8 21 2 22 2 23],
    start_ok := true, pwrite_ok := true, close_ok := true }

/-- The 4x4 capture whose final `pwrite` fails. -/
def scenario_4x4_write_fails : Env :=
  { scenario_4x4 with pwrite_ok := false }

/-- The 4x4 capture whose `close` fails. -/
def scenario_4x4_close_fails : Env :=
  { scenario_4x4 with close_ok := false }

/-- An RGB capture of two buffers, 100 and 50 bytes long; every call succeeds. -/
def scenario_rgb : Env :=
  { open_ok := true, garbage := fun _ => 0,
    deliveries := [ { buffer := List.replicate 100 7, pwrite_ok := true, stop_ok := true },
                    { buffer := List.replicate 50 9, pwrite_ok := true, stop_ok := true } ],
    start_ok := true, pwrite_ok := true, close_ok := true }

/-- An RGB capture of two buffers in which the write of the first buffer fails
and the driver delivers the second buffer all the same. -/
def scenario_rgb_write_fails : Env :=
  { open_ok := true, garbage := fun _ => 0,
    deliveries := [ { buffer := [1, 2], pwrite_ok := false, stop_ok := true },
                    { buffer := [3, 4, 5], pwrite_ok := true, stop_ok := true } ],
    start_ok := true, pwrite_ok := true, close_ok := true }

/-- The assembler state of the 4x4 capture after its first slice. -/
def after_first_4x4 : State :=
  buffer_callback_yuv (save_yuv_setup planes_420 scenario_4x4 (yuv_settings 4 4 2) idle).1
    (slice_of 8 11 2 12 2 13)

/-- The assembler state of the 4x4 capture after both slices: every plane is
full. -/
def full_4x4 : State :=
  (save_yuv_capture planes_420 scenario_4x4 (yuv_settings 4 4 2) idle).1

/-! ## Memory lemmas -/

theorem memcpy_outside (mem : Nat → Byte) (dst : Nat) (src : List Byte) (so n a : Nat)
    (h : a < dst ∨ dst + n ≤ a) : memcpy mem dst src so n a = mem a := by
  unfold memcpy
  rw [if_neg]
  omega

theorem memcpy_inside (mem : Nat → Byte) (dst : Nat) (src : List Byte) (so n a : Nat)
    (h1 : dst ≤ a) (h2 : a < dst + n) :
    memcpy mem dst src so n a = src.getD (so + (a - dst)) 0 := by
  unfold memcpy
  rw [if_pos ⟨h1, h2⟩]

theorem dump_length (mem : Nat → Byte) (start n : Nat) : (dump mem start n).length = n := by
  simp [dump]

theorem dump_congr (m1 m2 : Nat → Byte) (start n : Nat)
    (h : ∀ i, i < n → m1 (start + i) = m2 (start + i)) : dump m1 start n = dump m2 start n := by
  unfold dump
  apply List.map_congr_left
  intro i hi
  exact h i (List.mem_range.mp hi)

theorem dump_add (mem : Nat → Byte) (start a b : Nat) :
    dump mem start (a + b) = dump mem start a ++ dump mem (start + a) b := by
  unfold dump
  rw [List.range_add, List.map_append, List.map_map]
  congr 1
  apply List.map_congr_left
  intro i _
  simp [Nat.add_assoc]

theorem dump_memcpy (mem : Nat → Byte) (dst : Nat) (src : List Byte) (so n : Nat)
    (h : so + n ≤ src.length) : dump (memcpy mem dst src so n) dst n = chunk src so n := by
  apply List.ext_getElem
  · simp [dump, chunk]
    omega
  · intro i h1 h2
    simp only [dump_length] at h1
    have h3 : so + i < src.length := by omega
    simp [dump, chunk, memcpy, h1, List.getElem?_eq_getElem h3]

/-! ## One slice delivered to `buffer_callback_yuv` -/

theorem yuv_step_outside (s : State) (d : Delivery) (a : Nat)
    (hy : a < s.offset_y ∨ s.offset_y + s.yuv_planes_slice.length_y ≤ a)
    (hu : a < s.offset_u ∨ s.offset_u + s.yuv_planes_slice.length_u ≤ a)
    (hv : a < s.offset_v ∨ s.offset_v + s.yuv_planes_slice.length_v ≤ a) :
    (buffer_callback_yuv s d).file_buffer a = s.file_buffer a := by
  simp only [buffer_callback_yuv]
  rw [memcpy_outside _ _ _ _ _ _ hv, memcpy_outside _ _ _ _ _ _ hu,
    memcpy_outside _ _ _ _ _ _ hy]

theorem yuv_step_dump_v (s : State) (d : Delivery)
    (hin : s.yuv_planes_slice.offset_v + s.yuv_planes_slice.length_v ≤ d.buffer.length) :
    dump (buffer_callback_yuv s d).file_buffer s.offset_v s.yuv_planes_slice.length_v
      = chunk d.buffer s.yuv_planes_slice.offset_v s.yuv_planes_slice.length_v := by
  simp only [buffer_callback_yuv]
  exact dump_memcpy _ _ _ _ _ hin

theorem yuv_step_dump_u (s : State) (d : Delivery)
    (hin : s.yuv_planes_slice.offset_u + s.yuv_planes_slice.length_u ≤ d.buffer.length)
    (hv : s.offset_u + s.yuv_planes_slice.length_u ≤ s.offset_v
      ∨ s.offset_v + s.yuv_planes_slice.length_v ≤ s.offset_u) :
    dump (buffer_callback_yuv s d).file_buffer s.offset_u s.yuv_planes_slice.length_u
      = chunk d.buffer s.yuv_planes_slice.offset_u s.yuv_planes_slice.length_u := by
  simp only [buffer_callback_yuv]
  rw [← dump_memcpy (memcpy s.file_buffer s.offset_y d.buffer s.yuv_planes_slice.offset_y
    s.yuv_planes_slice.length_y) s.offset_u d.buffer _ _ hin]
  apply dump_congr
  intro i hi
  rw [memcpy_outside]
  omega

theorem yuv_step_dump_y (s : State) (d : Delivery)
    (hin : s.yuv_planes_slice.offset_y + s.yuv_planes_slice.length_y ≤ d.buffer.length)
    (hu : s.offset_y + s.yuv_planes_slice.length_y ≤ s.offset_u
      ∨ s.offset_u + s.yuv_planes_slice.length_u ≤ s.offset_y)
    (hv : s.offset_y + s.yuv_planes_slice.length_y ≤ s.offset_v
      ∨ s.offset_v + s.yuv_planes_slice.length_v ≤ s.offset_y) :
    dump (buffer_callback_yuv s d).file_buffer s.offset_y s.yuv_planes_slice.length_y
      = chunk d.buffer s.yuv_planes_slice.offset_y s.yuv_planes_slice.length_y := by
  simp only [buffer_callback_yuv]
  rw [← dump_memcpy s.file_buffer s.offset_y d.buffer _ _ hin]
  apply dump_congr
  intro i hi
  rw [memcpy_outside, memcpy_outside]
  · omega
  · omega

/-! ## A run of slices -/

theorem yuv_run_slice (ds : List Delivery) (s : State) :
    (ds.foldl buffer_callback_yuv s).yuv_planes_slice = s.yuv_planes_slice := by
  induction ds generalizing s with
  | nil => rfl
  | cons d ds ih => rw [List.foldl_cons, ih]; rfl

theorem yuv_run_rest (ds : List Delivery) (s : State) :
    (ds.foldl buffer_callback_yuv s).yuv_planes = s.yuv_planes
    ∧ (ds.foldl buffer_callback_yuv s).file = s.file
    ∧ (ds.foldl buffer_callback_yuv s).fd = s.fd
    ∧ (ds.foldl buffer_callback_yuv s).block = s.block
    ∧ (ds.foldl buffer_callback_yuv s).trace = s.trace := by
  induction ds generalizing s with
  | nil => exact ⟨rfl, rfl, rfl, rfl, rfl⟩
  | cons d ds ih => rw [List.foldl_cons]; exact ih (buffer_callback_yuv s d)

theorem yuv_run_cursors (ds : List Delivery) (s : State)
    (hy : s.offset_y + ds.length * s.yuv_planes_slice.length_y < U32)
    (hu : s.offset_u + ds.length * s.yuv_planes_slice.length_u < U32)
    (hv : s.offset_v + ds.length * s.yuv_planes_slice.length_v < U32) :
    (ds.foldl buffer_callback_yuv s).offset_y
        = s.offset_y + ds.length * s.yuv_planes_slice.length_y
    ∧ (ds.foldl buffer_callback_yuv s).offset_u
        = s.offset_u + ds.length * s.yuv_planes_slice.length_u
    ∧ (ds.foldl buffer_callback_yuv s).offset_v
        = s.offset_v + ds.length * s.yuv_planes_slice.length_v := by
  induction ds generalizing s with
  | nil => simp
  | cons d ds ih =>
    rw [List.length_cons, Nat.succ_mul] at hy hu hv
    have ey : (buffer_callback_yuv s d).offset_y = s.offset_y + s.yuv_planes_slice.length_y := by
      show (s.offset_y + s.yuv_planes_slice.length_y) % U32 = _
      apply Nat.mod_eq_of_lt; omega
    have eu : (buffer_callback_yuv s d).offset_u = s.offset_u + s.yuv_planes_slice.length_u := by
      show (s.offset_u + s.yuv_planes_slice.length_u) % U32 = _
      apply Nat.mod_eq_of_lt; omega
    have ev : (buffer_callback_yuv s d).offset_v = s.offset_v + s.yuv_planes_slice.length_v := by
      show (s.offset_v + s.yuv_planes_slice.length_v) % U32 = _
      apply Nat.mod_eq_of_lt; omega
    have sl : (buffer_callback_yuv s d).yuv_planes_slice = s.yuv_planes_slice := rfl
    have h := ih (buffer_callback_yuv s d) (by rw [ey, sl]; omega) (by rw [eu, sl]; omega)
      (by rw [ev, sl]; omega)
    rw [ey, eu, ev, sl] at h
    rw [List.foldl_cons, List.length_cons, Nat.succ_mul, Nat.succ_mul, Nat.succ_mul]
    omega

theorem yuv_run_outside (ds : List Delivery) (s : State) (a : Nat)
    (hy : s.offset_y + ds.length * s.yuv_planes_slice.length_y < U32)
    (hu : s.offset_u + ds.length * s.yuv_planes_slice.length_u < U32)
    (hv : s.offset_v + ds.length * s.yuv_planes_slice.length_v < U32)
    (ay : a < s.offset_y ∨ s.offset_y + ds.length * s.yuv_planes_slice.length_y ≤ a)
    (au : a < s.offset_u ∨ s.offset_u + ds.length * s.yuv_planes_slice.length_u ≤ a)
    (av : a < s.offset_v ∨ s.offset_v + ds.length * s.yuv_planes_slice.length_v ≤ a) :
    (ds.foldl buffer_callback_yuv s).file_buffer a = s.file_buffer a := by
  induction ds generalizing s with
  | nil => rfl
  | cons d ds ih =>
    rw [List.length_cons, Nat.succ_mul] at hy hu hv ay au av
    have ey : (buffer_callback_yuv s d).offset_y = s.offset_y + s.yuv_planes_slice.length_y := by
      show (s.offset_y + s.yuv_planes_slice.length_y) % U32 = _
      apply Nat.mod_eq_of_lt; omega
    have eu : (buffer_callback_yuv s d).offset_u = s.offset_u + s.yuv_planes_slice.length_u := by
      show (s.offset_u + s.yuv_planes_slice.length_u) % U32 = _
      apply Nat.mod_eq_of_lt; omega
    have ev : (buffer_callback_yuv s d).offset_v = s.offset_v + s.yuv_planes_slice.length_v := by
      show (s.offset_v + s.yuv_planes_slice.length_v) % U32 = _
      apply Nat.mod_eq_of_lt; omega
    have sl : (buffer_callback_yuv s d).yuv_planes_slice = s.yuv_planes_slice := rfl
    rw [List.foldl_cons, ih (buffer_callback_yuv s d) (by rw [ey, sl]; omega)
      (by rw [eu, sl]; omega) (by rw [ev, sl]; omega) (by rw [ey, sl]; omega)
      (by rw [eu, sl]; omega) (by rw [ev, sl]; omega)]
    exact yuv_step_outside s d a (by omega) (by omega) (by omega)

theorem yuv_run_dump (ds : List Delivery) (s : State)
    (hin : ∀ d ∈ ds, holds s.yuv_planes_slice d.buffer)
    (hyu : s.offset_y + ds.length * s.yuv_planes_slice.length_y ≤ s.offset_u)
    (huv : s.offset_u + ds.length * s.yuv_planes_slice.length_u ≤ s.offset_v)
    (hv : s.offset_v + ds.length * s.yuv_planes_slice.length_v < U32) :
    dump (ds.foldl buffer_callback_yuv s).file_buffer s.offset_y
        (ds.length * s.yuv_planes_slice.length_y) = plane_y s.yuv_planes_slice ds
    ∧ dump (ds.foldl buffer_callback_yuv s).file_buffer s.offset_u
        (ds.length * s.yuv_planes_slice.length_u) = plane_u s.yuv_planes_slice ds
    ∧ dump (ds.foldl buffer_callback_yuv s).file_buffer s.offset_v
        (ds.length * s.yuv_planes_slice.length_v) = plane_v s.yuv_planes_slice ds := by
  induction ds generalizing s with
  | nil => simp [dump, plane_y, plane_u, plane_v]
  | cons d ds ih =>
    rw [List.length_cons, Nat.succ_mul] at hyu huv hv
    have hd : holds s.yuv_planes_slice d.buffer := hin d (List.mem_cons_self d ds)
    obtain ⟨hdy, hdu, hdv⟩ := hd
    have ey : (buffer_callback_yuv s d).offset_y = s.offset_y + s.yuv_planes_slice.length_y := by
      show (s.offset_y + s.yuv_planes_slice.length_y) % U32 = _
      apply Nat.mod_eq_of_lt; omega
    have eu : (buffer_callback_yuv s d).offset_u = s.offset_u + s.yuv_planes_slice.length_u := by
      show (s.offset_u + s.yuv_planes_slice.length_u) % U32 = _
      apply Nat.mod_eq_of_lt; omega
    have ev : (buffer_callback_yuv s d).offset_v = s.offset_v + s.yuv_planes_slice.length_v := by
      show (s.offset_v + s.yuv_planes_slice.length_v) % U32 = _
      apply Nat.mod_eq_of_lt; omega
    have sl : (buffer_callback_yuv s d).yuv_planes_slice = s.yuv_planes_slice := rfl
    have h := ih (buffer_callback_yuv s d)
      (by rw [sl]; exact fun x hx => hin x (List.mem_cons_of_mem d hx))
      (by rw [ey, eu, sl]; omega) (by rw [eu, ev, sl]; omega) (by rw [ev, sl]; omega)
    rw [ey, eu, ev, sl] at h
    obtain ⟨h1, h2, h3⟩ := h
    have keep : ∀ a, a < s.offset_y + s.yuv_planes_slice.length_y
        ∨ (s.offset_u ≤ a ∧ a < s.offset_u + s.yuv_planes_slice.length_u)
        ∨ (s.offset_v ≤ a ∧ a < s.offset_v + s.yuv_planes_slice.length_v) →
        (ds.foldl buffer_callback_yuv (buffer_callback_yuv s d)).file_buffer a
          = (buffer_callback_yuv s d).file_buffer a := by
      intro a ha
      apply yuv_run_outside
      · rw [ey, sl]; omega
      · rw [eu, sl]; omega
      · rw [ev, sl]; omega
      · rw [ey, sl]; omega
      · rw [eu, sl]; omega
      · rw [ev, sl]; omega
    rw [List.foldl_cons, List.length_cons, Nat.succ_mul, Nat.succ_mul, Nat.succ_mul]
    refine ⟨?_, ?_, ?_⟩
    · rw [Nat.add_comm (ds.length * _), dump_add, h1]
      have e : dump (ds.foldl buffer_callback_yuv (buffer_callback_yuv s d)).file_buffer
          s.offset_y s.yuv_planes_slice.length_y
          = dump (buffer_callback_yuv s d).file_buffer s.offset_y
              s.yuv_planes_slice.length_y := by
        apply dump_congr
        intro i hi
        apply keep
        omega
      rw [e, yuv_step_dump_y s d hdy (by omega) (by omega)]
      simp [plane_y]
    · rw [Nat.add_comm (ds.length * _), dump_add, h2]
      have e : dump (ds.foldl buffer_callback_yuv (buffer_callback_yuv s d)).file_buffer
          s.offset_u s.yuv_planes_slice.length_u
          = dump (buffer_callback_yuv s d).file_buffer s.offset_u
              s.yuv_planes_slice.length_u := by
        apply dump_congr
        intro i hi
        apply keep
        omega
      rw [e, yuv_step_dump_u s d hdu (by omega)]
      simp [plane_u]
    · rw [Nat.add_comm (ds.length * _), dump_add, h3]
      have e : dump (ds.foldl buffer_callback_yuv (buffer_callback_yuv s d)).file_buffer
          s.offset_v s.yuv_planes_slice.length_v
          = dump (buffer_callback_yuv s d).file_buffer s.offset_v
              s.yuv_planes_slice.length_v := by
        apply dump_congr
        intro i hi
        apply keep
        omega
      rw [e, yuv_step_dump_v s d hdv]
      simp [plane_v]

theorem yuv_states_before (ds : List Delivery) (s : State)
    (hy : s.offset_y + ds.length * s.yuv_planes_slice.length_y < U32)
    (hu : s.offset_u + ds.length * s.yuv_planes_slice.length_u < U32)
    (hv : s.offset_v + ds.length * s.yuv_planes_slice.length_v < U32) :
    ∀ st ∈ states_before buffer_callback_yuv s ds,
      st.yuv_planes_slice = s.yuv_planes_slice
      ∧ ∃ j, j < ds.length
        ∧ st.offset_y = s.offset_y + j * s.yuv_planes_slice.length_y
        ∧ st.offset_u = s.offset_u + j * s.yuv_planes_slice.length_u
        ∧ st.offset_v = s.offset_v + j * s.yuv_planes_slice.length_v := by
  induction ds generalizing s with
  | nil => intro st hst; simp [states_before] at hst
  | cons d ds ih =>
    intro st hst
    rw [List.length_cons, Nat.succ_mul] at hy hu hv
    have ey : (buffer_callback_yuv s d).offset_y = s.offset_y + s.yuv_planes_slice.length_y := by
      show (s.offset_y + s.yuv_planes_slice.length_y) % U32 = _
      apply Nat.mod_eq_of_lt; omega
    have eu : (buffer_callback_yuv s d).offset_u = s.offset_u + s.yuv_planes_slice.length_u := by
      show (s.offset_u + s.yuv_planes_slice.length_u) % U32 = _
      apply Nat.mod_eq_of_lt; omega
    have ev : (buffer_callback_yuv s d).offset_v = s.offset_v + s.yuv_planes_slice.length_v := by
      show (s.offset_v + s.yuv_planes_slice.length_v) % U32 = _
      apply Nat.mod_eq_of_lt; omega
    have sl : (buffer_callback_yuv s d).yuv_planes_slice = s.yuv_planes_slice := rfl
    simp only [states_before, List.mem_cons] at hst
    rcases hst with rfl | hst
    · exact ⟨rfl, 0, by simp, by simp, by simp, by simp⟩
    · obtain ⟨h1, j, hj, jy, ju, jv⟩ := ih (buffer_callback_yuv s d) (by rw [ey, sl]; omega)
        (by rw [eu, sl]; omega) (by rw [ev, sl]; omega) st hst
      rw [sl] at h1
      rw [ey, sl] at jy
      rw [eu, sl] at ju
      rw [ev, sl] at jv
      refine ⟨h1, j + 1, by simp; omega, ?_, ?_, ?_⟩
      · rw [jy, Nat.succ_mul]; omega
      · rw [ju, Nat.succ_mul]; omega
      · rw [jv, Nat.succ_mul]; omega

/-! ## The YUV capture -/

theorem to_size_t_to_int (x : Nat) : to_size_t (to_int x) = x % U32 := by
  unfold to_size_t to_int
  simp only [U32, INT_LIMIT]
  split <;> omega

theorem overlay_nil (buf : List Byte) : overlay [] buf 0 = buf := by
  simp [overlay]

theorem save_yuv_opened (geom : Nat → Nat → omxcam_yuv_planes_t) (env : Env)
    (settings : omxcam_still_settings_t) (s : State) (hopen : env.open_ok = true) :
    save_yuv geom env settings s
      = save_yuv_finish env
          (save_yuv_capture geom env settings
            { s with file := [], fd := some { is_open := true, append := false },
                     trace := s.trace ++ [Event.print_capturing] }).2
          (save_yuv_capture geom env settings
            { s with file := [], fd := some { is_open := true, append := false },
                     trace := s.trace ++ [Event.print_capturing] }).1 := by
  simp [save_yuv, sys_open, hopen, State.emit]

theorem save_yuv_finish_written (env : Env) (size : Int) (s : State)
    (hfd : s.fd = some { is_open := true, append := false })
    (hwrite : env.pwrite_ok = true) :
    (save_yuv_finish env size s).1.file = overlay s.file (dump s.file_buffer 0 (to_size_t size)) 0
    ∧ (save_yuv_finish env size s).1.trace
        = s.trace ++ [Event.pwrite (to_size_t size) 0 (some 0), Event.close env.close_ok]
          ++ (if env.close_ok then [] else [Event.err_close])
    ∧ (save_yuv_finish env size s).1.fd = some { is_open := false, append := false }
    ∧ (save_yuv_finish env size s).1.block = none
    ∧ (save_yuv_finish env size s).2 = (if env.close_ok then 0 else 1) := by
  cases hc : env.close_ok <;>
    simp [save_yuv_finish, sys_pwrite, sys_close, free, State.emit, hfd, hwrite, hc, dump_length]

theorem save_yuv_setup_fields (geom : Nat → Nat → omxcam_yuv_planes_t) (env : Env)
    (w h sh : Nat) (s : State) :
    (save_yuv_setup geom env (yuv_settings w h sh) s).1.yuv_planes = geom w h
    ∧ (save_yuv_setup geom env (yuv_settings w h sh) s).1.yuv_planes_slice = geom w sh
    ∧ (save_yuv_setup geom env (yuv_settings w h sh) s).1.offset_y = (geom w h).offset_y
    ∧ (save_yuv_setup geom env (yuv_settings w h sh) s).1.offset_u = (geom w h).offset_u
    ∧ (save_yuv_setup geom env (yuv_settings w h sh) s).1.offset_v = (geom w h).offset_v
    ∧ (save_yuv_setup geom env (yuv_settings w h sh) s).1.file_buffer = env.garbage
    ∧ (save_yuv_setup geom env (yuv_settings w h sh) s).1.block
        = some (to_size_t (to_int ((geom w h).offset_v + (geom w h).length_v)))
    ∧ (save_yuv_setup geom env (yuv_settings w h sh) s).2
        = to_int ((geom w h).offset_v + (geom w h).length_v)
    ∧ (save_yuv_setup geom env (yuv_settings w h sh) s).1.file = s.file
    ∧ (save_yuv_setup geom env (yuv_settings w h sh) s).1.fd = s.fd
    ∧ (save_yuv_setup geom env (yuv_settings w h sh) s).1.trace = s.trace := by
  simp [save_yuv_setup, malloc, yuv_settings]

theorem save_yuv_capture_fields (geom : Nat → Nat → omxcam_yuv_planes_t) (env : Env)
    (w h sh : Nat) (s : State) :
    (save_yuv_capture geom env (yuv_settings w h sh) s).2
        = to_int ((geom w h).offset_v + (geom w h).length_v)
    ∧ (save_yuv_capture geom env (yuv_settings w h sh) s).1.file = s.file
    ∧ (save_yuv_capture geom env (yuv_settings w h sh) s).1.fd = s.fd
    ∧ (save_yuv_capture geom env (yuv_settings w h sh) s).1.trace
        = s.trace ++ (if env.start_ok then [] else [Event.perror])
    ∧ (save_yuv_capture geom env (yuv_settings w h sh) s).1.block
        = some (to_size_t (to_int ((geom w h).offset_v + (geom w h).length_v)))
    ∧ (save_yuv_capture geom env (yuv_settings w h sh) s).1.file_buffer
        = (env.deliveries.foldl buffer_callback_yuv
            (save_yuv_setup geom env (yuv_settings w h sh) s).1).file_buffer
    ∧ (save_yuv_capture geom env (yuv_settings w h sh) s).1.offset_y
        = (env.deliveries.foldl buffer_callback_yuv
            (save_yuv_setup geom env (yuv_settings w h sh) s).1).offset_y
    ∧ (save_yuv_capture geom env (yuv_settings w h sh) s).1.offset_u
        = (env.deliveries.foldl buffer_callback_yuv
            (save_yuv_setup geom env (yuv_settings w h sh) s).1).offset_u
    ∧ (save_yuv_capture geom env (yuv_settings w h sh) s).1.offset_v
        = (env.deliveries.foldl buffer_callback_yuv
            (save_yuv_setup geom env (yuv_settings w h sh) s).1).offset_v := by
  obtain ⟨_, _, _, _, _, _, f7, f8, f9, f10, f11⟩ := save_yuv_setup_fields geom env w h sh s
  obtain ⟨_, r2, r3, r4, r5⟩ := yuv_run_rest env.deliveries
    (save_yuv_setup geom env (yuv_settings w h sh) s).1
  have cb : (yuv_settings w h sh).buffer_callback = buffer_callback_yuv := rfl
  cases hs : env.start_ok <;>
    simp [save_yuv_capture, omxcam_still_start, log_error, State.emit, hs, cb, f7, f8, f9, f10,
      f11, r2, r3, r4, r5]

/-- C1: when the frame planes are contiguous in the order Y, U, V, every plane
of the frame is `n` slice planes long, and each of the `n` delivered buffers
holds the three sub-chunks of the slice geometry, a capture whose `open` and
final `pwrite` succeed leaves in the file exactly the Y sub-chunks in delivery
order, then the U sub-chunks, then the V sub-chunks; the file is
`offset_v + length_v` bytes long, and the capture makes a single `pwrite`, of
that many bytes, which lands at file offset 0. -/
theorem save_yuv_persists_planes (geom : Nat → Nat → omxcam_yuv_planes_t) (env : Env)
    (w h sh : Nat) (s : State)
    (hopen : env.open_ok = true) (hwrite : env.pwrite_ok = true)
    (hoy : (geom w h).offset_y = 0)
    (hou : (geom w h).offset_u = (geom w h).offset_y + (geom w h).length_y)
    (hov : (geom w h).offset_v = (geom w h).offset_u + (geom w h).length_u)
    (hly : (geom w h).length_y = env.deliveries.length * (geom w sh).length_y)
    (hlu : (geom w h).length_u = env.deliveries.length * (geom w sh).length_u)
    (hlv : (geom w h).length_v = env.deliveries.length * (geom w sh).length_v)
    (hin : ∀ d ∈ env.deliveries, holds (geom w sh) d.buffer)
    (hfit : (geom w h).offset_v + (geom w h).length_v < INT_LIMIT) :
    (save_yuv geom env (yuv_settings w h sh) s).1.file
        = plane_y (geom w sh) env.deliveries ++ plane_u (geom w sh) env.deliveries
            ++ plane_v (geom w sh) env.deliveries
    ∧ (save_yuv geom env (yuv_settings w h sh) s).1.file.length
        = (geom w h).offset_v + (geom w h).length_v
    ∧ (save_yuv geom env (yuv_settings w h sh) s).1.trace
        = s.trace ++ [Event.print_capturing] ++ (if env.start_ok then [] else [Event.perror])
          ++ [Event.pwrite ((geom w h).offset_v + (geom w h).length_v) 0 (some 0),
              Event.close env.close_ok]
          ++ (if env.close_ok then [] else [Event.err_close]) := by
  have htot : to_size_t (to_int ((geom w h).offset_v + (geom w h).length_v))
      = (geom w h).offset_v + (geom w h).length_v := by
    rw [to_size_t_to_int]
    apply Nat.mod_eq_of_lt
    simp only [U32, INT_LIMIT] at *
    omega
  obtain ⟨f1, f2, f3, f4, f5, f6, f7, f8, f9, f10, f11⟩ := save_yuv_setup_fields geom env w h sh
    { s with file := [], fd := some { is_open := true, append := false },
             trace := s.trace ++ [Event.print_capturing] }
  obtain ⟨c1, c2, c3, c4, c5, c6, _, _, _⟩ := save_yuv_capture_fields geom env w h sh
    { s with file := [], fd := some { is_open := true, append := false },
             trace := s.trace ++ [Event.print_capturing] }
  have hd := yuv_run_dump env.deliveries
    (save_yuv_setup geom env (yuv_settings w h sh)
      { s with file := [], fd := some { is_open := true, append := false },
               trace := s.trace ++ [Event.print_capturing] }).1
    (by rw [f2]; exact hin) (by rw [f2, f3, f4]; omega) (by rw [f2, f4, f5]; omega)
    (by rw [f2, f5]; simp only [U32, INT_LIMIT] at *; omega)
  rw [f2, f3, f4, f5, ← hly, ← hlu, ← hlv, ← c6] at hd
  obtain ⟨d1, d2, d3⟩ := hd
  obtain ⟨w1, w2, _, _, _⟩ := save_yuv_finish_written env
    (save_yuv_capture geom env (yuv_settings w h sh)
      { s with file := [], fd := some { is_open := true, append := false },
               trace := s.trace ++ [Event.print_capturing] }).2
    (save_yuv_capture geom env (yuv_settings w h sh)
      { s with file := [], fd := some { is_open := true, append := false },
               trace := s.trace ++ [Event.print_capturing] }).1 c3 hwrite
  rw [c1, htot, c2, overlay_nil] at w1
  rw [c1, htot, c4] at w2
  have hfile : (save_yuv geom env (yuv_settings w h sh) s).1.file
      = plane_y (geom w sh) env.deliveries ++ plane_u (geom w sh) env.deliveries
          ++ plane_v (geom w sh) env.deliveries := by
    have eu : (geom w h).offset_u = (geom w h).length_y := by omega
    have ev : (geom w h).offset_v = (geom w h).length_y + (geom w h).length_u := by omega
    have e : (geom w h).offset_v + (geom w h).length_v
        = (geom w h).length_y + (geom w h).length_u + (geom w h).length_v := by omega
    rw [hoy] at d1
    rw [eu] at d2
    rw [ev] at d3
    rw [save_yuv_opened geom env _ s hopen, c1, w1, e, dump_add, dump_add]
    simp only [Nat.zero_add]
    rw [d1, d2, d3]
  refine ⟨hfile, ?_, ?_⟩
  · rw [save_yuv_opened geom env _ s hopen, c1, w1, dump_length]
  · rw [save_yuv_opened geom env _ s hopen, c1, w2]

theorem save_yuv_persists_planes_witness :
    (save_yuv planes_420 scenario_64x32 (yuv_settings 64 32 16) idle).1.file
        = plane_y (planes_420 64 16) scenario_64x32.deliveries
            ++ plane_u (planes_420 64 16) scenario_64x32.deliveries
            ++ plane_v (planes_420 64 16) scenario_64x32.deliveries
    ∧ (save_yuv planes_420 scenario_64x32 (yuv_settings 64 32 16) idle).1.file.length = 3072 := by
  have h := save_yuv_persists_planes planes_420 scenario_64x32 64 32 16 idle rfl rfl rfl rfl rfl
    (by decide) (by decide) (by decide)
    (by
      intro d hd
      simp only [scenario_64x32, List.mem_cons, List.mem_singleton, List.not_mem_nil,
        or_false] at hd
      rcases hd with rfl | rfl <;>
        simp only [holds, slice_of, planes_420, List.length_append, List.length_replicate] <;>
        decide)
    (by decide)
  exact ⟨h.1, h.2.1⟩

/-- C2: from the cursors that `save_yuv` initialises, after the `n`
invocations of `buffer_callback_yuv` made during the capture each cursor is
`frame.offset_p + n * slice.length_p` (the cursors are `uint32_t`: this is for
values below 2^32); so when every plane of the frame is `n` slice planes long
the cursors end at `offset_p + length_p`. -/
theorem cursor_bookkeeping (geom : Nat → Nat → omxcam_yuv_planes_t) (env : Env)
    (w h sh : Nat) (s : State)
    (hy : (geom w h).offset_y + env.deliveries.length * (geom w sh).length_y < U32)
    (hu : (geom w h).offset_u + env.deliveries.length * (geom w sh).length_u < U32)
    (hv : (geom w h).offset_v + env.deliveries.length * (geom w sh).length_v < U32) :
    ((save_yuv_capture geom env (yuv_settings w h sh) s).1.offset_y
        = (geom w h).offset_y + env.deliveries.length * (geom w sh).length_y
      ∧ (save_yuv_capture geom env (yuv_settings w h sh) s).1.offset_u
        = (geom w h).offset_u + env.deliveries.length * (geom w sh).length_u
      ∧ (save_yuv_capture geom env (yuv_settings w h sh) s).1.offset_v
        = (geom w h).offset_v + env.deliveries.length * (geom w sh).length_v)
    ∧ ((geom w h).length_y = env.deliveries.length * (geom w sh).length_y →
        (geom w h).length_u = env.deliveries.length * (geom w sh).length_u →
        (geom w h).length_v = env.deliveries.length * (geom w sh).length_v →
        (save_yuv_capture geom env (yuv_settings w h sh) s).1.offset_y
          = (geom w h).offset_y + (geom w h).length_y
        ∧ (save_yuv_capture geom env (yuv_settings w h sh) s).1.offset_u
          = (geom w h).offset_u + (geom w h).length_u
        ∧ (save_yuv_capture geom env (yuv_settings w h sh) s).1.offset_v
          = (geom w h).offset_v + (geom w h).length_v) := by
  obtain ⟨_, f2, f3, f4, f5, _⟩ := save_yuv_setup_fields geom env w h sh s
  obtain ⟨_, _, _, _, _, _, c7, c8, c9⟩ := save_yuv_capture_fields geom env w h sh s
  have k := yuv_run_cursors env.deliveries (save_yuv_setup geom env (yuv_settings w h sh) s).1
    (by rw [f2, f3]; exact hy) (by rw [f2, f4]; exact hu) (by rw [f2, f5]; exact hv)
  rw [f2, f3, f4, f5, ← c7, ← c8, ← c9] at k
  refine ⟨k, ?_⟩
  intro ey eu ev
  rw [ey, eu, ev]
  exact k

theorem cursor_bookkeeping_witness :
    (save_yuv_capture planes_420 scenario_64x32 (yuv_settings 64 32 16) idle).1.offset_y = 2048
    ∧ (save_yuv_capture planes_420 scenario_64x32 (yuv_settings 64 32 16) idle).1.offset_u = 2560
    ∧ (save_yuv_capture planes_420 scenario_64x32 (yuv_settings 64 32 16) idle).1.offset_v = 3072 :=
  (cursor_bookkeeping planes_420 scenario_64x32 64 32 16 idle (by decide) (by decide)
    (by decide)).2 (by decide) (by decide) (by decide)

/-- C3 fails as stated: with a 4x6 frame and slices of height 4 the Y plane
holds 24 bytes and a slice carries 16.  The second and last call does not
stop at the 8 bytes that remain: the Y cursor ends at 32, not at 24, the first
byte of the U plane holds a Y byte of the second slice, and the byte at
address 36, just past the 36 allocated bytes, has been written. -/
theorem short_final_slice_counterexample :
    (planes_420 4 6).length_y % (planes_420 4 4).length_y ≠ 0
    ∧ (∀ d ∈ scenario_4x6.deliveries, holds (planes_420 4 4) d.buffer)
    ∧ (planes_420 4 6).offset_y + (planes_420 4 6).length_y = 24
    ∧ (save_yuv_capture planes_420 scenario_4x6 (yuv_settings 4 6 4) idle).1.offset_y = 32
    ∧ (save_yuv_capture planes_420 scenario_4x6 (yuv_settings 4 6 4) idle).1.file_buffer 24 = 21
    ∧ (save_yuv_capture planes_420 scenario_4x6 (yuv_settings 4 6 4) idle).1.block = some 36
    ∧ (save_yuv_capture planes_420 scenario_4x6 (yuv_settings 4 6 4) idle).1.file_buffer 36 = 23
    ∧ scenario_4x6.garbage 36 = 0 := by
  decide

/-- C3, amended: `buffer_callback_yuv` never shortens a slice.  The last call
of a capture, like every other, makes its three copies with the full slice
lengths at the cursors reached so far and leaves each cursor at
`frame.offset_p + n * slice.length_p` (for values below 2^32); so when
`frame.length_p` is not a multiple of `slice.length_p` the cursor of that
plane does not end at `offset_p + length_p`, whatever the number of slices. -/
theorem final_slice_is_full (geom : Nat → Nat → omxcam_yuv_planes_t) (env : Env)
    (w h sh : Nat) (s : State) (ds : List Delivery) (d : Delivery)
    (hdel : env.deliveries = ds ++ [d])
    (hy : (geom w h).offset_y + env.deliveries.length * (geom w sh).length_y < U32)
    (hu : (geom w h).offset_u + env.deliveries.length * (geom w sh).length_u < U32)
    (hv : (geom w h).offset_v + env.deliveries.length * (geom w sh).length_v < U32) :
    yuv_writes (ds.foldl buffer_callback_yuv (save_yuv_setup geom env (yuv_settings w h sh) s).1)
        = [ ((geom w h).offset_y + ds.length * (geom w sh).length_y, (geom w sh).length_y),
            ((geom w h).offset_u + ds.length * (geom w sh).length_u, (geom w sh).length_u),
            ((geom w h).offset_v + ds.length * (geom w sh).length_v, (geom w sh).length_v) ]
    ∧ (save_yuv_capture geom env (yuv_settings w h sh) s).1.offset_y
        = (geom w h).offset_y + ds.length * (geom w sh).length_y + (geom w sh).length_y
    ∧ (save_yuv_capture geom env (yuv_settings w h sh) s).1.offset_u
        = (geom w h).offset_u + ds.length * (geom w sh).length_u + (geom w sh).length_u
    ∧ (save_yuv_capture geom env (yuv_settings w h sh) s).1.offset_v
        = (geom w h).offset_v + ds.length * (geom w sh).length_v + (geom w sh).length_v
    ∧ ((geom w h).length_y % (geom w sh).length_y ≠ 0 →
        (save_yuv_capture geom env (yuv_settings w h sh) s).1.offset_y
          ≠ (geom w h).offset_y + (geom w h).length_y)
    ∧ ((geom w h).length_u % (geom w sh).length_u ≠ 0 →
        (save_yuv_capture geom env (yuv_settings w h sh) s).1.offset_u
          ≠ (geom w h).offset_u + (geom w h).length_u)
    ∧ ((geom w h).length_v % (geom w sh).length_v ≠ 0 →
        (save_yuv_capture geom env (yuv_settings w h sh) s).1.offset_v
          ≠ (geom w h).offset_v + (geom w h).length_v) := by
  obtain ⟨_, f2, f3, f4, f5, _⟩ := save_yuv_setup_fields geom env w h sh s
  obtain ⟨_, _, _, _, _, _, c7, c8, c9⟩ := save_yuv_capture_fields geom env w h sh s
  have hn : env.deliveries.length = ds.length + 1 := by rw [hdel]; simp
  have k := yuv_run_cursors env.deliveries (save_yuv_setup geom env (yuv_settings w h sh) s).1
    (by rw [f2, f3]; exact hy) (by rw [f2, f4]; exact hu) (by rw [f2, f5]; exact hv)
  rw [f2, f3, f4, f5, ← c7, ← c8, ← c9] at k
  obtain ⟨ky, ku, kv⟩ := k
  rw [hn, Nat.succ_mul] at hy hu hv
  have b := yuv_run_cursors ds (save_yuv_setup geom env (yuv_settings w h sh) s).1
    (by rw [f2, f3]; omega) (by rw [f2, f4]; omega) (by rw [f2, f5]; omega)
  rw [f2, f3, f4, f5] at b
  obtain ⟨b1, b2, b3⟩ := b
  have bs := yuv_run_slice ds (save_yuv_setup geom env (yuv_settings w h sh) s).1
  rw [f2] at bs
  refine ⟨by simp [yuv_writes, b1, b2, b3, bs], ?_, ?_, ?_, ?_, ?_, ?_⟩
  · rw [ky, hn, Nat.succ_mul]; omega
  · rw [ku, hn, Nat.succ_mul]; omega
  · rw [kv, hn, Nat.succ_mul]; omega
  · intro hm he
    apply hm
    have e : (geom w h).length_y = env.deliveries.length * (geom w sh).length_y := by omega
    rw [e, Nat.mul_mod_left]
  · intro hm he
    apply hm
    have e : (geom w h).length_u = env.deliveries.length * (geom w sh).length_u := by omega
    rw [e, Nat.mul_mod_left]
  · intro hm he
    apply hm
    have e : (geom w h).length_v = env.deliveries.length * (geom w sh).length_v := by omega
    rw [e, Nat.mul_mod_left]

theorem final_slice_is_full_witness :
    yuv_writes ([slice_of 16 11 4 12 4 13].foldl buffer_callback_yuv
        (save_yuv_setup planes_420 scenario_4x6 (yuv_settings 4 6 4) idle).1)
      = [(16, 16), (28, 4), (34, 4)]
    ∧ (save_yuv_capture planes_420 scenario_4x6 (yuv_settings 4 6 4) idle).1.offset_y = 32
    ∧ (save_yuv_capture planes_420 scenario_4x6 (yuv_settings 4 6 4) idle).1.offset_y
        ≠ (planes_420 4 6).offset_y + (planes_420 4 6).length_y := by
  have h := final_slice_is_full planes_420 scenario_4x6 4 6 4 idle [slice_of 16 11 4 12 4 13]
    (slice_of 16 21 4 22 4 23) rfl (by decide) (by decide) (by decide)
  exact ⟨h.1, h.2.1, h.2.2.2.2.1 (by decide)⟩

/-- C4 fails as stated: a 4x4 frame with slices of height 2 holds two slices
and 24 bytes.  When the driver delivers a third in-bounds slice, the third call
copies 8 bytes to address 16, the end of the Y plane, and 2 bytes to address 24,
the end of the allocated block: the byte at address 24 changes from 0 to 33. -/
theorem bounds_counterexample :
    (∀ d ∈ scenario_4x4_extra.deliveries, holds (planes_420 4 2) d.buffer)
    ∧ (save_yuv_capture planes_420 scenario_4x4_extra (yuv_settings 4 4 2) idle).1.block = some 24
    ∧ (planes_420 4 4).offset_y + (planes_420 4 4).length_y = 16
    ∧ (planes_420 4 4).offset_v + (planes_420 4 4).length_v = 24
    ∧ (states_before buffer_callback_yuv
          (save_yuv_setup planes_420 scenario_4x4_extra (yuv_settings 4 4 2) idle).1
          scenario_4x4_extra.deliveries).map yuv_writes
        = [ [(0, 8), (16, 2), (20, 2)], [(8, 8), (18, 2), (22, 2)], [(16, 8), (20, 2), (24, 2)] ]
    ∧ scenario_4x4_extra.garbage 24 = 0
    ∧ (save_yuv_capture planes_420 scenario_4x4_extra (yuv_settings 4 4 2) idle).1.file_buffer 24
        = 33 := by
  decide

/-- C4, amended: when the driver delivers no more than the frame holds
(`n * slice.length_p <= frame.length_p` for each plane) and the planes lie
inside the allocated `offset_v + length_v` bytes, every copy of every call
stays inside its plane, hence inside the allocated block, and no byte past the
block is changed. -/
theorem writes_within_planes (geom : Nat → Nat → omxcam_yuv_planes_t) (env : Env)
    (w h sh : Nat) (s : State)
    (hky : env.deliveries.length * (geom w sh).length_y ≤ (geom w h).length_y)
    (hku : env.deliveries.length * (geom w sh).length_u ≤ (geom w h).length_u)
    (hkv : env.deliveries.length * (geom w sh).length_v ≤ (geom w h).length_v)
    (hpy : (geom w h).offset_y + (geom w h).length_y ≤ (geom w h).offset_v + (geom w h).length_v)
    (hpu : (geom w h).offset_u + (geom w h).length_u ≤ (geom w h).offset_v + (geom w h).length_v)
    (hfit : (geom w h).offset_v + (geom w h).length_v < INT_LIMIT) :
    (∀ st ∈ states_before buffer_callback_yuv
          (save_yuv_setup geom env (yuv_settings w h sh) s).1 env.deliveries,
        yuv_writes st = [ (st.offset_y, (geom w sh).length_y),
                          (st.offset_u, (geom w sh).length_u),
                          (st.offset_v, (geom w sh).length_v) ]
        ∧ (geom w h).offset_y ≤ st.offset_y
        ∧ st.offset_y + (geom w sh).length_y ≤ (geom w h).offset_y + (geom w h).length_y
        ∧ (geom w h).offset_u ≤ st.offset_u
        ∧ st.offset_u + (geom w sh).length_u ≤ (geom w h).offset_u + (geom w h).length_u
        ∧ (geom w h).offset_v ≤ st.offset_v
        ∧ st.offset_v + (geom w sh).length_v ≤ (geom w h).offset_v + (geom w h).length_v
        ∧ ∀ r ∈ yuv_writes st, r.1 + r.2 ≤ (geom w h).offset_v + (geom w h).length_v)
    ∧ (save_yuv_capture geom env (yuv_settings w h sh) s).1.block
        = some ((geom w h).offset_v + (geom w h).length_v)
    ∧ ∀ a, (geom w h).offset_v + (geom w h).length_v ≤ a →
        (save_yuv_capture geom env (yuv_settings w h sh) s).1.file_buffer a = env.garbage a := by
  obtain ⟨_, f2, f3, f4, f5, f6, _⟩ := save_yuv_setup_fields geom env w h sh s
  obtain ⟨_, _, _, _, c5, c6, _⟩ := save_yuv_capture_fields geom env w h sh s
  have htot : to_size_t (to_int ((geom w h).offset_v + (geom w h).length_v))
      = (geom w h).offset_v + (geom w h).length_v := by
    rw [to_size_t_to_int]
    apply Nat.mod_eq_of_lt
    simp only [U32, INT_LIMIT] at *
    omega
  have wy : (geom w h).offset_y + env.deliveries.length * (geom w sh).length_y < U32 := by
    simp only [U32, INT_LIMIT] at *; omega
  have wu : (geom w h).offset_u + env.deliveries.length * (geom w sh).length_u < U32 := by
    simp only [U32, INT_LIMIT] at *; omega
  have wv : (geom w h).offset_v + env.deliveries.length * (geom w sh).length_v < U32 := by
    simp only [U32, INT_LIMIT] at *; omega
  refine ⟨?_, by rw [c5, htot], ?_⟩
  · intro st hst
    obtain ⟨h1, j, hj, jy, ju, jv⟩ := yuv_states_before env.deliveries
      (save_yuv_setup geom env (yuv_settings w h sh) s).1
      (by rw [f2, f3]; exact wy) (by rw [f2, f4]; exact wu) (by rw [f2, f5]; exact wv) st hst
    rw [f2] at h1
    rw [f2, f3] at jy
    rw [f2, f4] at ju
    rw [f2, f5] at jv
    have my : (j + 1) * (geom w sh).length_y ≤ env.deliveries.length * (geom w sh).length_y :=
      Nat.mul_le_mul_right _ hj
    have mu : (j + 1) * (geom w sh).length_u ≤ env.deliveries.length * (geom w sh).length_u :=
      Nat.mul_le_mul_right _ hj
    have mv : (j + 1) * (geom w sh).length_v ≤ env.deliveries.length * (geom w sh).length_v :=
      Nat.mul_le_mul_right _ hj
    rw [Nat.succ_mul] at my mu mv
    have e : yuv_writes st = [ (st.offset_y, (geom w sh).length_y),
        (st.offset_u, (geom w sh).length_u), (st.offset_v, (geom w sh).length_v) ] := by
      simp [yuv_writes, h1]
    refine ⟨e, by omega, by omega, by omega, by omega, by omega, by omega, ?_⟩
    intro r hr
    rw [e] at hr
    simp only [List.mem_cons, List.mem_singleton, List.not_mem_nil, or_false] at hr
    rcases hr with rfl | rfl | rfl <;> simp only <;> omega
  · intro a ha
    rw [c6, ← f6]
    apply yuv_run_outside
    · rw [f2, f3]; exact wy
    · rw [f2, f4]; exact wu
    · rw [f2, f5]; exact wv
    · rw [f2, f3]; omega
    · rw [f2, f4]; omega
    · rw [f2, f5]; omega

theorem writes_within_planes_witness :
    (states_before buffer_callback_yuv
          (save_yuv_setup planes_420 scenario_4x4 (yuv_settings 4 4 2) idle).1
          scenario_4x4.deliveries).length = 2
    ∧ (∀ st ∈ states_before buffer_callback_yuv
          (save_yuv_setup planes_420 scenario_4x4 (yuv_settings 4 4 2) idle).1
          scenario_4x4.deliveries,
        ∀ r ∈ yuv_writes st, r.1 + r.2 ≤ 24)
    ∧ (save_yuv_capture planes_420 scenario_4x4 (yuv_settings 4 4 2) idle).1.block = some 24
    ∧ ∀ a, 24 ≤ a →
        (save_yuv_capture planes_420 scenario_4x4 (yuv_settings 4 4 2) idle).1.file_buffer a
          = scenario_4x4.garbage a := by
  have h := writes_within_planes planes_420 scenario_4x4 4 4 2 idle (by decide) (by decide)
    (by decide) (by decide) (by decide) (by decide)
  exact ⟨by decide, fun st hst => (h.1 st hst).2.2.2.2.2.2.2, h.2.1, h.2.2⟩

/-- C5 fails as stated: in the 4x4 capture with both slices delivered every
plane is full (the Y cursor is 16, the end of the Y plane).  A further slice
exceeds the remaining capacity of every plane, yet the call copies it, here
over the first byte of the U plane, advances the cursors and signals nothing. -/
theorem overflow_counterexample :
    holds full_4x4.yuv_planes_slice (slice_of 8 31 2 32 2 33).buffer
    ∧ full_4x4.offset_y + full_4x4.yuv_planes_slice.length_y
        > full_4x4.yuv_planes.offset_y + full_4x4.yuv_planes.length_y
    ∧ full_4x4.offset_y = 16
    ∧ (buffer_callback_yuv full_4x4 (slice_of 8 31 2 32 2 33)).offset_y = 24
    ∧ full_4x4.offset_u = 20
    ∧ (buffer_callback_yuv full_4x4 (slice_of 8 31 2 32 2 33)).offset_u = 22
    ∧ full_4x4.offset_v = 24
    ∧ (buffer_callback_yuv full_4x4 (slice_of 8 31 2 32 2 33)).offset_v = 26
    ∧ full_4x4.file_buffer 16 = 12
    ∧ (buffer_callback_yuv full_4x4 (slice_of 8 31 2 32 2 33)).file_buffer 16 = 31
    ∧ (buffer_callback_yuv full_4x4 (slice_of 8 31 2 32 2 33)).trace = full_4x4.trace := by
  decide

/-- C5, amended: `buffer_callback_yuv` makes no capacity check.  For every
state and every delivered slice holding its three sub-chunks, also one longer
than the remaining capacity of a plane, the call signals nothing (no call to
the system or the driver, the descriptor, the file and the heap block are left
alone), advances each cursor by the slice length modulo 2^32, and copies: the V
sub-chunk is at the old V cursor afterwards, and so are the U and Y sub-chunks
at theirs when the destination ranges of the call do not overlap. -/
theorem overflow_not_checked (s : State) (d : Delivery)
    (hin : holds s.yuv_planes_slice d.buffer) :
    (buffer_callback_yuv s d).trace = s.trace
    ∧ (buffer_callback_yuv s d).fd = s.fd
    ∧ (buffer_callback_yuv s d).file = s.file
    ∧ (buffer_callback_yuv s d).block = s.block
    ∧ (buffer_callback_yuv s d).offset_y = (s.offset_y + s.yuv_planes_slice.length_y) % U32
    ∧ (buffer_callback_yuv s d).offset_u = (s.offset_u + s.yuv_planes_slice.length_u) % U32
    ∧ (buffer_callback_yuv s d).offset_v = (s.offset_v + s.yuv_planes_slice.length_v) % U32
    ∧ dump (buffer_callback_yuv s d).file_buffer s.offset_v s.yuv_planes_slice.length_v
        = chunk d.buffer s.yuv_planes_slice.offset_v s.yuv_planes_slice.length_v
    ∧ ((s.offset_u + s.yuv_planes_slice.length_u ≤ s.offset_v
          ∨ s.offset_v + s.yuv_planes_slice.length_v ≤ s.offset_u) →
        dump (buffer_callback_yuv s d).file_buffer s.offset_u s.yuv_planes_slice.length_u
          = chunk d.buffer s.yuv_planes_slice.offset_u s.yuv_planes_slice.length_u)
    ∧ ((s.offset_y + s.yuv_planes_slice.length_y ≤ s.offset_u
          ∨ s.offset_u + s.yuv_planes_slice.length_u ≤ s.offset_y) →
        (s.offset_y + s.yuv_planes_slice.length_y ≤ s.offset_v
          ∨ s.offset_v + s.yuv_planes_slice.length_v ≤ s.offset_y) →
        dump (buffer_callback_yuv s d).file_buffer s.offset_y s.yuv_planes_slice.length_y
          = chunk d.buffer s.yuv_planes_slice.offset_y s.yuv_planes_slice.length_y) :=
  ⟨rfl, rfl, rfl, rfl, rfl, rfl, rfl, yuv_step_dump_v s d hin.2.2,
    fun h => yuv_step_dump_u s d hin.2.1 h, fun h1 h2 => yuv_step_dump_y s d hin.1 h1 h2⟩

theorem overflow_not_checked_witness :
    (buffer_callback_yuv full_4x4 (slice_of 8 31 2 32 2 33)).trace = full_4x4.trace
    ∧ (buffer_callback_yuv full_4x4 (slice_of 8 31 2 32 2 33)).offset_v
        = (full_4x4.offset_v + full_4x4.yuv_planes_slice.length_v) % U32
    ∧ dump (buffer_callback_yuv full_4x4 (slice_of 8 31 2 32 2 33)).file_buffer
          full_4x4.offset_v full_4x4.yuv_planes_slice.length_v
        = chunk (slice_of 8 31 2 32 2 33).buffer full_4x4.yuv_planes_slice.offset_v
            full_4x4.yuv_planes_slice.length_v
    ∧ dump (buffer_callback_yuv full_4x4 (slice_of 8 31 2 32 2 33)).file_buffer
          full_4x4.offset_u full_4x4.yuv_planes_slice.length_u
        = chunk (slice_of 8 31 2 32 2 33).buffer full_4x4.yuv_planes_slice.offset_u
            full_4x4.yuv_planes_slice.length_u := by
  have h := overflow_not_checked full_4x4 (slice_of 8 31 2 32 2 33) (by decide)
  exact ⟨h.1, h.2.2.2.2.2.2.1, h.2.2.2.2.2.2.2.1, h.2.2.2.2.2.2.2.2.1 (by decide)⟩

/-- C10: one call of `buffer_callback_yuv` leaves every byte outside its three
destination ranges `[cursor_p, cursor_p + slice.length_p)` as it was, in
particular the bytes written by earlier slices, and changes neither the heap
block and its size, nor the two geometries, nor the descriptor, the file or the
trace; the delivered buffer is an input only.  What changes is the bytes in
the three ranges and the three cursors. -/
theorem buffer_callback_yuv_frame (s : State) (d : Delivery) (a : Nat)
    (hy : a < s.offset_y ∨ s.offset_y + s.yuv_planes_slice.length_y ≤ a)
    (hu : a < s.offset_u ∨ s.offset_u + s.yuv_planes_slice.length_u ≤ a)
    (hv : a < s.offset_v ∨ s.offset_v + s.yuv_planes_slice.length_v ≤ a) :
    (buffer_callback_yuv s d).file_buffer a = s.file_buffer a
    ∧ (buffer_callback_yuv s d).block = s.block
    ∧ (buffer_callback_yuv s d).yuv_planes = s.yuv_planes
    ∧ (buffer_callback_yuv s d).yuv_planes_slice = s.yuv_planes_slice
    ∧ (buffer_callback_yuv s d).fd = s.fd
    ∧ (buffer_callback_yuv s d).file = s.file
    ∧ (buffer_callback_yuv s d).trace = s.trace :=
  ⟨yuv_step_outside s d a hy hu hv, rfl, rfl, rfl, rfl, rfl, rfl⟩

theorem buffer_callback_yuv_frame_witness :
    after_first_4x4.file_buffer 0 = 11
    ∧ (buffer_callback_yuv after_first_4x4 (slice_of 8 21 2 22 2 23)).file_buffer 0
        = after_first_4x4.file_buffer 0
    ∧ (buffer_callback_yuv after_first_4x4 (slice_of 8 21 2 22 2 23)).block
        = after_first_4x4.block :=
  ⟨by decide,
    (buffer_callback_yuv_frame after_first_4x4 (slice_of 8 21 2 22 2 23) 0 (by decide)
      (by decide) (by decide)).1,
    (buffer_callback_yuv_frame after_first_4x4 (slice_of 8 21 2 22 2 23) 0 (by decide)
      (by decide) (by decide)).2.1⟩

/-! ## The RGB capture -/

theorem rgb_step_rest (s : State) (d : Delivery) :
    (buffer_callback_rgb s d).fd = s.fd
    ∧ (buffer_callback_rgb s d).block = s.block
    ∧ (buffer_callback_rgb s d).file_buffer = s.file_buffer := by
  unfold buffer_callback_rgb sys_pwrite
  cases hfd : s.fd with
  | none => cases hs : d.stop_ok <;> simp [State.emit, log_error, hfd]
  | some f =>
    obtain ⟨io, ap⟩ := f
    cases io <;> cases ap <;> cases hp : d.pwrite_ok <;> cases hs : d.stop_ok <;>
      simp [State.emit, log_error, hfd]

theorem rgb_run_rest (ds : List Delivery) (s : State) :
    (ds.foldl buffer_callback_rgb s).fd = s.fd
    ∧ (ds.foldl buffer_callback_rgb s).block = s.block
    ∧ (ds.foldl buffer_callback_rgb s).file_buffer = s.file_buffer := by
  induction ds generalizing s with
  | nil => exact ⟨rfl, rfl, rfl⟩
  | cons d ds ih =>
    obtain ⟨h1, h2, h3⟩ := rgb_step_rest s d
    obtain ⟨i1, i2, i3⟩ := ih (buffer_callback_rgb s d)
    rw [List.foldl_cons, i1, i2, i3]
    exact ⟨h1, h2, h3⟩

theorem rgb_step_appends (s : State) (d : Delivery)
    (hfd : s.fd = some { is_open := true, append := true }) (hd : d.pwrite_ok = true) :
    (buffer_callback_rgb s d).file = s.file ++ d.buffer
    ∧ (buffer_callback_rgb s d).trace
        = s.trace ++ [Event.pwrite d.buffer.length 0 (some s.file.length)] := by
  simp [buffer_callback_rgb, sys_pwrite, hfd, hd]

theorem rgb_run_appends (ds : List Delivery) (s : State)
    (hfd : s.fd = some { is_open := true, append := true })
    (hd : ∀ d ∈ ds, d.pwrite_ok = true) :
    (ds.foldl buffer_callback_rgb s).file = s.file ++ (ds.map (fun d => d.buffer)).flatten
    ∧ (ds.foldl buffer_callback_rgb s).trace = s.trace ++ append_log s.file.length ds := by
  induction ds generalizing s with
  | nil => simp [append_log]
  | cons d ds ih =>
    obtain ⟨h1, h2⟩ := rgb_step_appends s d hfd (hd d (List.mem_cons_self d ds))
    obtain ⟨i1, i2⟩ := ih (buffer_callback_rgb s d) (by rw [(rgb_step_rest s d).1]; exact hfd)
      (fun x hx => hd x (List.mem_cons_of_mem d hx))
    rw [List.foldl_cons, i1, i2, h1, h2]
    simp [append_log]

theorem save_rgb_opened (env : Env) (w h sh : Nat) (s : State) (hopen : env.open_ok = true) :
    (save_rgb env (rgb_settings w h sh) s).1.file
        = (env.deliveries.foldl buffer_callback_rgb
            { s with file := [], fd := some { is_open := true, append := true },
                     trace := s.trace ++ [Event.print_capturing] }).file
    ∧ (save_rgb env (rgb_settings w h sh) s).1.trace
        = (env.deliveries.foldl buffer_callback_rgb
            { s with file := [], fd := some { is_open := true, append := true },
                     trace := s.trace ++ [Event.print_capturing] }).trace
          ++ (if env.start_ok then [] else [Event.perror]) ++ [Event.close env.close_ok]
          ++ (if env.close_ok then [] else [Event.err_close])
    ∧ (save_rgb env (rgb_settings w h sh) s).2 = (if env.close_ok then 0 else 1) := by
  have hfd := (rgb_run_rest env.deliveries
    { s with file := [], fd := some { is_open := true, append := true },
             trace := s.trace ++ [Event.print_capturing] }).1
  have cb : (rgb_settings w h sh).buffer_callback = buffer_callback_rgb := rfl
  cases hs : env.start_ok <;> cases hc : env.close_ok <;>
    simp [save_rgb, sys_open, hopen, State.emit, omxcam_still_start, log_error, sys_close, cb,
      hs, hc, hfd]

/-- For contrast with `save_rgb`: on a descriptor opened without `O_APPEND`, the
way `save_yuv` opens its file, the same callback writes every buffer at offset
0, and a later buffer overwrites the start of an earlier one. -/
theorem rgb_callback_without_append :
    ([ ({ buffer := [1, 2, 6, 7], pwrite_ok := true, stop_ok := true } : Delivery),
       { buffer := [3, 4, 5], pwrite_ok := true, stop_ok := true } ].foldl buffer_callback_rgb
        (sys_open idle false true)).file = [3, 4, 5, 7]
    ∧ ([ ({ buffer := [1, 2, 6, 7], pwrite_ok := true, stop_ok := true } : Delivery),
       { buffer := [3, 4, 5], pwrite_ok := true, stop_ok := true } ].foldl buffer_callback_rgb
        (sys_open idle true true)).file = [1, 2, 6, 7, 3, 4, 5] := by
  decide

/-- C6: in an RGB capture whose `open` and writes all succeed, the file holds
exactly the delivered buffers one after the other, in delivery order: the
descriptor is opened with `O_APPEND`, so each `pwrite`, although called with
offset 0, lands at the end of what the earlier buffers put in the file: buffer
`i` at `len b1 + ... + len b(i-1)`. -/
theorem save_rgb_appends (env : Env) (w h sh : Nat) (s : State)
    (hopen : env.open_ok = true) (hw : ∀ d ∈ env.deliveries, d.pwrite_ok = true) :
    (save_rgb env (rgb_settings w h sh) s).1.file
        = (env.deliveries.map (fun d => d.buffer)).flatten
    ∧ (save_rgb env (rgb_settings w h sh) s).1.trace
        = s.trace ++ [Event.print_capturing] ++ append_log 0 env.deliveries
          ++ (if env.start_ok then [] else [Event.perror]) ++ [Event.close env.close_ok]
          ++ (if env.close_ok then [] else [Event.err_close]) := by
  obtain ⟨o1, o2, _⟩ := save_rgb_opened env w h sh s hopen
  obtain ⟨r1, r2⟩ := rgb_run_appends env.deliveries
    { s with file := [], fd := some { is_open := true, append := true },
             trace := s.trace ++ [Event.print_capturing] } rfl hw
  rw [o1, o2, r1, r2]
  simp

theorem save_rgb_appends_witness :
    (save_rgb scenario_rgb (rgb_settings 640 480 16) idle).1.file
        = List.replicate 100 7 ++ List.replicate 50 9
    ∧ (save_rgb scenario_rgb (rgb_settings 640 480 16) idle).1.trace
        = [Event.print_capturing, Event.pwrite 100 0 (some 0), Event.pwrite 50 0 (some 100),
            Event.close true] := by
  have h := save_rgb_appends scenario_rgb 640 480 16 idle rfl (by
    intro d hd
    simp only [scenario_rgb, List.mem_cons, List.mem_singleton, List.not_mem_nil,
      or_false] at hd
    rcases hd with rfl | rfl <;> rfl)
  refine ⟨?_, ?_⟩
  · rw [h.1]; simp [scenario_rgb]
  · rw [h.2]; simp [scenario_rgb, idle, append_log]

/-! ## Results and resources -/

theorem save_yuv_finish_failed (env : Env) (size : Int) (s : State)
    (hwrite : env.pwrite_ok = false) :
    (save_yuv_finish env size s).2 = 1
    ∧ (save_yuv_finish env size s).1.fd = s.fd
    ∧ (save_yuv_finish env size s).1.block = s.block := by
  unfold save_yuv_finish sys_pwrite
  cases hfd : s.fd with
  | none => simp [State.emit, hfd]
  | some f => simp [State.emit, hwrite, hfd]

theorem save_yuv_not_opened (geom : Nat → Nat → omxcam_yuv_planes_t) (env : Env)
    (settings : omxcam_still_settings_t) (s : State) (hopen : env.open_ok = false) :
    (save_yuv geom env settings s).2 = 1 := by
  simp [save_yuv, sys_open, hopen]

theorem save_rgb_not_opened (env : Env) (settings : omxcam_still_settings_t) (s : State)
    (hopen : env.open_ok = false) : (save_rgb env settings s).2 = 1 := by
  simp [save_rgb, sys_open, hopen]

/-- C7 fails as stated: in an RGB capture whose first write fails (the call
returns -1 and the error line is printed) while `open` and `close` succeed,
`save_rgb` returns 0. -/
theorem unreported_write_failure :
    Event.pwrite 2 0 none ∈ (save_rgb scenario_rgb_write_fails (rgb_settings 640 480 16) idle).1.trace
    ∧ Event.err_pwrite ∈ (save_rgb scenario_rgb_write_fails (rgb_settings 640 480 16) idle).1.trace
    ∧ (save_rgb scenario_rgb_write_fails (rgb_settings 640 480 16) idle).2 = 0 := by
  decide

/-- C7, amended: `save_yuv` returns 0 exactly when the `open`, the final
`pwrite` and the `close` all succeed, and 1 otherwise; `save_rgb` returns 0
exactly when the `open` and the `close` succeed, and 1 otherwise.  The writes
made inside `buffer_callback_rgb` and the result of `omxcam_still_start` have
no part in the returned value. -/
theorem return_values (geom : Nat → Nat → omxcam_yuv_planes_t) (env : Env) (w h sh : Nat)
    (s : State) :
    ((save_yuv geom env (yuv_settings w h sh) s).2 = 0
        ↔ env.open_ok = true ∧ env.pwrite_ok = true ∧ env.close_ok = true)
    ∧ ((save_yuv geom env (yuv_settings w h sh) s).2 = 0
        ∨ (save_yuv geom env (yuv_settings w h sh) s).2 = 1)
    ∧ ((save_rgb env (rgb_settings w h sh) s).2 = 0
        ↔ env.open_ok = true ∧ env.close_ok = true)
    ∧ ((save_rgb env (rgb_settings w h sh) s).2 = 0
        ∨ (save_rgb env (rgb_settings w h sh) s).2 = 1) := by
  have yuv : (save_yuv geom env (yuv_settings w h sh) s).2
      = (if env.open_ok = true ∧ env.pwrite_ok = true ∧ env.close_ok = true then 0 else 1) := by
    cases ho : env.open_ok with
    | false => rw [save_yuv_not_opened geom env _ s ho]; simp
    | true =>
      obtain ⟨_, _, c3, _⟩ := save_yuv_capture_fields geom env w h sh
        { s with file := [], fd := some { is_open := true, append := false },
                 trace := s.trace ++ [Event.print_capturing] }
      rw [save_yuv_opened geom env _ s ho]
      cases hw : env.pwrite_ok with
      | false => rw [(save_yuv_finish_failed env _ _ hw).1]; simp
      | true =>
        rw [(save_yuv_finish_written env _ _ c3 hw).2.2.2.2]
        cases env.close_ok <;> simp
  have rgb : (save_rgb env (rgb_settings w h sh) s).2
      = (if env.open_ok = true ∧ env.close_ok = true then 0 else 1) := by
    cases ho : env.open_ok with
    | false => rw [save_rgb_not_opened env _ s ho]; simp
    | true =>
      rw [(save_rgb_opened env w h sh s ho).2.2]
      cases env.close_ok <;> simp
  rw [yuv, rgb]
  refine ⟨?_, ?_, ?_, ?_⟩
  · split <;> simp_all
  · split <;> simp
  · split <;> simp_all
  · split <;> simp

/-- C8, the failing path: when the final `pwrite` of `save_yuv` fails, the
function returns 1 at once: the descriptor is still open and the 24-byte frame
buffer is still allocated, and no `close` was attempted.  On the sibling
paths (here: `close` fails) the buffer is freed and the descriptor released. -/
theorem save_yuv_write_failure_leaks :
    (save_yuv planes_420 scenario_4x4_write_fails (yuv_settings 4 4 2) idle).2 = 1
    ∧ (save_yuv planes_420 scenario_4x4_write_fails (yuv_settings 4 4 2) idle).1.fd
        = some { is_open := true, append := false }
    ∧ (save_yuv planes_420 scenario_4x4_write_fails (yuv_settings 4 4 2) idle).1.block = some 24
    ∧ (save_yuv planes_420 scenario_4x4_write_fails (yuv_settings 4 4 2) idle).1.trace
        = [Event.print_capturing, Event.pwrite 24 0 none, Event.err_pwrite]
    ∧ (save_yuv planes_420 scenario_4x4_close_fails (yuv_settings 4 4 2) idle).2 = 1
    ∧ (save_yuv planes_420 scenario_4x4_close_fails (yuv_settings 4 4 2) idle).1.fd
        = some { is_open := false, append := false }
    ∧ (save_yuv planes_420 scenario_4x4_close_fails (yuv_settings 4 4 2) idle).1.block = none := by
  decide

/-! ## After a failed write -/

theorem rgb_step_trace (s : State) (d : Delivery) (ap : Bool)
    (hfd : s.fd = some { is_open := true, append := ap }) :
    (d.pwrite_ok = true →
      (buffer_callback_rgb s d).trace
        = s.trace ++ [Event.pwrite d.buffer.length 0 (some (if ap then s.file.length else 0))])
    ∧ (d.pwrite_ok = false →
      (buffer_callback_rgb s d).trace
        = s.trace ++ [Event.pwrite d.buffer.length 0 none, Event.err_pwrite,
            Event.still_stop d.stop_ok] ++ (if d.stop_ok then [] else [Event.perror])) := by
  cases ap <;> cases hp : d.pwrite_ok <;> cases hs : d.stop_ok <;>
    simp [buffer_callback_rgb, sys_pwrite, State.emit, log_error, hfd, hp, hs]

theorem rgb_step_counts (s : State) (d : Delivery) (ap : Bool)
    (hfd : s.fd = some { is_open := true, append := ap }) :
    ((buffer_callback_rgb s d).trace.filter Event.is_pwrite).length
        = (s.trace.filter Event.is_pwrite).length + 1
    ∧ ((buffer_callback_rgb s d).trace.filter Event.is_stop).length
        = (s.trace.filter Event.is_stop).length + (if d.pwrite_ok then 0 else 1) := by
  obtain ⟨h1, h2⟩ := rgb_step_trace s d ap hfd
  cases hp : d.pwrite_ok with
  | true => rw [h1 hp]; simp [Event.is_pwrite, Event.is_stop]
  | false =>
    rw [h2 hp]
    cases d.stop_ok <;> simp [Event.is_pwrite, Event.is_stop]

/-- C9 fails as stated: the write of the first buffer fails and a stop is
requested during that call, yet when the driver delivers the second buffer a
`pwrite` is attempted for it (and succeeds, at file offset 0). -/
theorem write_after_failure :
    (save_rgb scenario_rgb_write_fails (rgb_settings 640 480 16) idle).1.trace
        = [Event.print_capturing, Event.pwrite 2 0 none, Event.err_pwrite, Event.still_stop true,
            Event.pwrite 3 0 (some 0), Event.close true]
    ∧ (save_rgb scenario_rgb_write_fails (rgb_settings 640 480 16) idle).1.file = [3, 4, 5] := by
  decide

/-- C9, amended: with the descriptor open, a call of `buffer_callback_rgb`
whose write fails prints the error and requests a driver stop during that
call (and logs a failing stop).  The callback keeps no record of the failure:
over any sequence of deliveries a `pwrite` is attempted for every buffer, the
ones delivered after a failed write included, and a stop is requested once per
failed write. -/
theorem rgb_writes_every_buffer (s : State) (ds : List Delivery) (ap : Bool)
    (hfd : s.fd = some { is_open := true, append := ap }) :
    (∀ d : Delivery, d.pwrite_ok = false →
      (buffer_callback_rgb s d).trace
        = s.trace ++ [Event.pwrite d.buffer.length 0 none, Event.err_pwrite,
            Event.still_stop d.stop_ok] ++ (if d.stop_ok then [] else [Event.perror]))
    ∧ ((ds.foldl buffer_callback_rgb s).trace.filter Event.is_pwrite).length
        = (s.trace.filter Event.is_pwrite).length + ds.length
    ∧ ((ds.foldl buffer_callback_rgb s).trace.filter Event.is_stop).length
        = (s.trace.filter Event.is_stop).length
          + (ds.filter (fun d => !d.pwrite_ok)).length := by
  refine ⟨fun d hd => (rgb_step_trace s d ap hfd).2 hd, ?_⟩
  induction ds generalizing s with
  | nil => simp
  | cons d ds ih =>
    obtain ⟨c1, c2⟩ := rgb_step_counts s d ap hfd
    obtain ⟨i1, i2⟩ := ih (buffer_callback_rgb s d) (by rw [(rgb_step_rest s d).1]; exact hfd)
    rw [List.foldl_cons, i1, i2, c1, c2]
    cases hp : d.pwrite_ok <;> simp [List.filter_cons, hp] <;> omega

theorem rgb_writes_every_buffer_witness :
    (([ ({ buffer := [1, 2], pwrite_ok := false, stop_ok := true } : Delivery),
        { buffer := [3, 4, 5], pwrite_ok := true, stop_ok := true } ].foldl buffer_callback_rgb
          (sys_open idle true true)).trace.filter Event.is_pwrite).length = 2
    ∧ (([ ({ buffer := [1, 2], pwrite_ok := false, stop_ok := true } : Delivery),
        { buffer := [3, 4, 5], pwrite_ok := true, stop_ok := true } ].foldl buffer_callback_rgb
          (sys_open idle true true)).trace.filter Event.is_stop).length = 1 := by
  have h := rgb_writes_every_buffer (sys_open idle true true)
    [ { buffer := [1, 2], pwrite_ok := false, stop_ok := true },
      { buffer := [3, 4, 5], pwrite_ok := true, stop_ok := true } ] true rfl
  exact ⟨h.2.1, h.2.2⟩

end Omxcam
